import Mathlib

/-! # ndt7-exporter: the startup configuration built by `main`

A shallow embedding of `src/main.go`.  The flag variables of the `var` block
become the record `Flags` (their values once `flag.Parse` has returned), the
body of `main` becomes the function `main`, split into the blocks it is made
of in the source (profiling, direction resolution, source-IP validation,
emitter composition, ticker creation, construction of the runner).

Everything `main` obtains from other packages is a field of `Env`
(`cpu.*.HasAES`, `net.ParseIP`, `ndt7.NewClient`, `os.Create`,
`pprof.StartCPUProfile`, `http.ListenAndServe`, `memoryless.NewTicker`,
`version.Version`, and the two path markers of `internal/params`), so that
every statement below holds for whatever those packages do.

The goroutine of lines 247-250 runs beside `main`: what it comes to is kept
apart from what the goroutine of `main` comes to (`MainResult.serverFatal` and
`MainResult.outcome`), and nothing is assumed about which of the two is first.

Not modelled: the registration of the gauges in the Prometheus default
registry, the registration of the `/metrics` handler, and the deferred
clean-ups.
-/

namespace Ndt7Exporter

/-! ## Go strings -/

/-- A Go `string` is a read-only sequence of bytes. -/
abbrev GoString := List Nat

/-- The bytes of an ASCII literal. -/
def str (s : String) : GoString := s.toList.map Char.toNat

namespace strings

/-- Whether `s` starts with the bytes of `substr`. -/
def startsWith : GoString → GoString → Bool
  | _, [] => true
  | [], _ :: _ => false
  | c :: s, d :: substr => c == d && startsWith s substr

/-- Go `strings.Contains(s, substr)`: `substr` occurs in `s` at some offset. -/
def Contains : GoString → GoString → Bool
  | [], substr => startsWith [] substr
  | c :: s, substr => startsWith (c :: s) substr || Contains s substr

end strings

/-! ## Values of other packages that `main` handles -/

/-- The fields of `url.URL` that a service URL carries. -/
structure URL where
  Scheme : GoString
  Host : GoString
  Path : GoString
  RawQuery : GoString
  deriving DecidableEq, Repr

/-- Go `net.IP`, a byte slice; the nil slice is `none` of `Option IP`. -/
abbrev IP := List Nat

/-- Go `net.TCPAddr`, of which `main` sets the field `IP` only. -/
structure TCPAddr where
  IP : IP
  deriving DecidableEq, Repr

/-- Go `net.Dialer`, of which `main` sets the field `LocalAddr` only. -/
structure NetDialer where
  LocalAddr : Option TCPAddr
  deriving DecidableEq, Repr

/-- Go `tls.Config`, of which `main` sets the field `InsecureSkipVerify` only. -/
structure TLSConfig where
  InsecureSkipVerify : Bool
  deriving DecidableEq, Repr

/-- The fields of `websocket.Dialer` that `main` assigns.  `NetDialContext` is
a function in Go; the one `main` installs does nothing but dial through a
`net.Dialer` value, so it is represented by that value, and `none` is the nil
function. -/
structure WSDialer where
  TLSClientConfig : Option TLSConfig
  NetDialContext : Option NetDialer
  deriving DecidableEq, Repr

/-- The exported fields of `ndt7.Client` that `main` reads or assigns. -/
structure Client where
  ClientName : GoString
  ClientVersion : GoString
  ServiceURL : Option URL
  Server : GoString
  Scheme : GoString
  Dialer : WSDialer
  deriving DecidableEq, Repr

/-- Go `prometheus.GaugeOpts`, the fields `main` fills in. -/
structure GaugeOpts where
  Namespace : GoString
  Name : GoString
  Help : GoString
  deriving DecidableEq, Repr

/-- The value of `prometheus.NewGaugeVec(opts, labelNames)`. -/
structure GaugeVec where
  opts : GaugeOpts
  labelNames : List GoString
  deriving DecidableEq, Repr

/-- Go `time.Duration`: a count of nanoseconds. -/
abbrev Duration := Int

/-- Go `time.Second`. -/
def Second : Duration := 1000000000

/-- Go `time.Minute`. -/
def Minute : Duration := 60 * Second

/-- Go `time.Hour`. -/
def Hour : Duration := 60 * Minute

/-- Go `memoryless.Config`. -/
structure MemorylessConfig where
  Expected : Duration
  Min : Duration
  Max : Duration
  deriving DecidableEq, Repr

/-- The ticker `memoryless.NewTicker` returns for a configuration. -/
structure Ticker where
  config : MemorylessConfig
  deriving DecidableEq, Repr

/-- The bits of `golang.org/x/sys/cpu` read by `defaultSchemeForArch`. -/
structure CPU where
  ARM64HasAES : Bool
  ARMHasAES : Bool
  X86HasAES : Bool
  deriving DecidableEq, Repr

/-- The two path markers of package `internal/params`, which is not part of
the sources at hand: they are taken as parameters. -/
structure Params where
  DownloadURLPath : GoString
  UploadURLPath : GoString
  deriving DecidableEq, Repr

/-- What `main` obtains from outside `main.go`.  An error is the text of the
Go `error`; `none` is the nil error.  `ListenAndServe addr` is the error
`http.ListenAndServe(addr, nil)` returns, and `none` when it serves for ever
and never returns. -/
structure Env where
  cpu : CPU
  params : Params
  Version : GoString
  ParseIP : GoString → Option IP
  NewClient : GoString → GoString → Client
  osCreate : GoString → Option GoString
  StartCPUProfile : GoString → Option GoString
  ListenAndServe : GoString → Option GoString
  NewTicker : MemorylessConfig → Option GoString

/-! ## The emitters and the runner

Packages `internal/emitter` and `internal/runner` are not part of the sources
at hand; `main` only calls their constructors and `RunTestsInLoop`. -/

/-- Modelled from the spec: package `internal/emitter` is missing.  Section 4.3
describes the stages as composed by wrapping, each wrapping stage holding the
stage it wraps; a stage is therefore the term built by the constructor calls,
the Prometheus stage also holding the five gauges it was given, in the order
of the arguments of `emitter.NewPrometheus`. -/
inductive Emitter where
  | HumanReadable : Emitter
  | Quiet (inner : Emitter) : Emitter
  | Prometheus (inner : Emitter)
      (dlThroughput dlLatency ulThroughput ulLatency lastResultGauge : GaugeVec) : Emitter
  deriving DecidableEq, Repr

namespace emitter

/-- The call `emitter.NewHumanReadable()`. -/
def NewHumanReadable : Emitter := Emitter.HumanReadable

/-- The call `emitter.NewQuiet(e)`. -/
def NewQuiet (e : Emitter) : Emitter := Emitter.Quiet e

/-- The call `emitter.NewPrometheus(e, g1, g2, g3, g4, g5)`. -/
def NewPrometheus (e : Emitter) (g1 g2 g3 g4 g5 : GaugeVec) : Emitter :=
  Emitter.Prometheus e g1 g2 g3 g4 g5

end emitter

/-- Go `runner.RunnerOptions`, with the four fields `main` fills in. -/
structure RunnerOptions where
  Download : Bool
  Upload : Bool
  Timeout : Duration
  ClientFactory : Unit → Client

/-- The value of `runner.New(opt, e, ticker)`. -/
structure Runner where
  opt : RunnerOptions
  e : Emitter
  ticker : Ticker

namespace runner

/-- The call `runner.New(opt, e, ticker)`. -/
def New (opt : RunnerOptions) (e : Emitter) (ticker : Ticker) : Runner :=
  { opt := opt, e := e, ticker := ticker }

end runner

/-- A measurement direction. -/
inductive TestDirection where
  | Download
  | Upload
  deriving DecidableEq, Repr

/-- Modelled from the spec: the body of the runner loop (`internal/runner`) is
missing.  Section 4.2, steps 1 and 5: on a tick the active direction set is
determined from the configuration, and the active directions run one after
the other, download before upload.  The result lists the tests one cycle
starts. -/
def Runner.RunTestsOnce (r : Runner) : List TestDirection :=
  (if r.opt.Download then [TestDirection.Download] else []) ++
    (if r.opt.Upload then [TestDirection.Upload] else [])

/-- Modelled from the spec: the runner loop (`internal/runner`) is missing.
Section 4.2: one cycle per tick, every cycle run from the configuration the
runner was built with.  The result lists the cycles of the first `ticks`
ticks, oldest first. -/
def Runner.RunTestsInLoop (r : Runner) : Nat → List (List TestDirection)
  | 0 => []
  | ticks + 1 => r.RunTestsOnce :: r.RunTestsInLoop ticks

/-! ## `main.go` -/

/-- Constant `defaultTimeout`. -/
def defaultTimeout : Duration := 55 * Second

/-- Variable `ClientName`. -/
def ClientName : GoString := str "github.com/adaricorp/ndt7-exporter"

/-- Function `defaultSchemeForArch`. -/
def defaultSchemeForArch (cpu : CPU) : GoString :=
  if cpu.ARM64HasAES || cpu.ARMHasAES || cpu.X86HasAES then
    str "wss"
  else
    str "ws"

/-- The flag variables of the `var` block: `flagScheme` is `flagScheme.Value`,
`flagService` is `flagService.URL` (with `none` for nil), the pointer
variables are the values they point to. -/
structure Flags where
  flagProfile : GoString
  flagScheme : GoString
  flagNoVerify : Bool
  flagServer : GoString
  flagTimeout : Duration
  flagService : Option URL
  flagUpload : Bool
  flagDownload : Bool
  flagSourceIP : GoString
  flagPeriodMean : Duration
  flagPeriodMin : Duration
  flagPeriodMax : Duration
  flagListen : GoString
  deriving DecidableEq, Repr

/-- The flag variables as the `var` block initialises them: the value of every
flag that is not given on the command line. -/
def defaultFlags (cpu : CPU) : Flags :=
  { flagProfile := str ""
    flagScheme := defaultSchemeForArch cpu
    flagNoVerify := false
    flagServer := str ""
    flagTimeout := defaultTimeout
    flagService := none
    flagUpload := true
    flagDownload := true
    flagSourceIP := str ""
    flagPeriodMean := 6 * Hour
    flagPeriodMin := 36 * Minute
    flagPeriodMax := 15 * Hour
    flagListen := str "localhost:9191" }

/-- Lines 141-152 of `main`: CPU profiling.  Returns the lines logged and the
error `log.Fatal` is called with, if any. -/
def startProfile (env : Env) (flags : Flags) : List GoString × Option GoString :=
  if flags.flagProfile ≠ str "" then
    let logged := [str "warning: using -profile will reduce the performance"]
    match env.osCreate flags.flagProfile with
    | some err => (logged, some err)
    | none =>
      match env.StartCPUProfile flags.flagProfile with
      | some err => (logged, some err)
      | none => (logged, none)
  else
    ([], none)

/-- Lines 154-164 of `main`: "If a service URL is given, then only one
direction is possible."  Returns the flag variables after the block and the
lines printed on standard output. -/
def resolveDirections (p : Params) (flags : Flags) : Flags × List GoString :=
  match flags.flagService with
  | some u =>
    if strings.Contains u.Path p.DownloadURLPath then
      ({ flags with flagUpload := false, flagDownload := true }, [])
    else if strings.Contains u.Path p.UploadURLPath then
      ({ flags with flagUpload := true, flagDownload := false }, [])
    else
      ({ flags with flagService := none },
        [str "WARNING: ignoring unsupported service url"])
  | none => (flags, [])

/-- Lines 166-173 of `main`: "Source IP validation".  Returns the variable
`sourceIP` and the lines printed on standard output. -/
def validateSourceIP (env : Env) (flags : Flags) : Option IP × List GoString :=
  if flags.flagSourceIP ≠ str "" then
    match env.ParseIP flags.flagSourceIP with
    | none =>
      (none, [str "WARNING: ignoring unparsed source IP: " ++ flags.flagSourceIP])
    | some ip => (some ip, [])
  else
    (none, [])

/-- The label names shared by the four throughput and latency gauges. -/
def addressLabels : List GoString := [str "client_ip", str "server_ip"]

/-- Lines 177-187 of `main`. -/
def dlThroughput : GaugeVec :=
  { opts :=
      { Namespace := str "ndt7"
        Name := str "download_throughput_bps"
        Help := str "m-lab ndt7 download speed in bits/s" }
    labelNames := addressLabels }

/-- Lines 189-199 of `main`. -/
def dlLatency : GaugeVec :=
  { opts :=
      { Namespace := str "ndt7"
        Name := str "download_latency_seconds"
        Help := str "m-lab ndt7 download latency time in seconds" }
    labelNames := addressLabels }

/-- Lines 201-211 of `main`. -/
def ulThroughput : GaugeVec :=
  { opts :=
      { Namespace := str "ndt7"
        Name := str "upload_throughput_bps"
        Help := str "m-lab ndt7 upload speed in bits/s" }
    labelNames := addressLabels }

/-- Lines 213-223 of `main`. -/
def ulLatency : GaugeVec :=
  { opts :=
      { Namespace := str "ndt7"
        Name := str "upload_latency_seconds"
        Help := str "m-lab ndt7 upload latency time in seconds" }
    labelNames := addressLabels }

/-- Lines 232-243 of `main`. -/
def lastResultGauge : GaugeVec :=
  { opts :=
      { Namespace := str "ndt7"
        Name := str "result_timestamp_seconds"
        Help := str "m-lab ndt7 test completion time in seconds since 1970-01-01" }
    labelNames := [str "test", str "result"] }

/-- Lines 175 and 246 of `main`: the variable `e` when `runner.New` is
called. -/
def buildEmitter : Emitter :=
  let e := emitter.NewQuiet emitter.NewHumanReadable
  emitter.NewPrometheus e dlThroughput dlLatency ulThroughput ulLatency lastResultGauge

/-- Lines 269-285 of `main`: the function literal `ClientFactory`.  `flags` are
the flag variables after the direction resolution and `sourceIP` the local
variable the literal captures; nothing assigns to either once the runner
exists, so each call reads the same values. -/
def ClientFactory (env : Env) (flags : Flags) (sourceIP : Option IP) (_ : Unit) : Client :=
  let c := env.NewClient ClientName env.Version
  let c := { c with ServiceURL := flags.flagService }
  let c := { c with Server := flags.flagServer }
  let c := { c with Scheme := flags.flagScheme }
  let c :=
    { c with
      Dialer :=
        { c.Dialer with
          TLSClientConfig := some { InsecureSkipVerify := flags.flagNoVerify } } }
  match sourceIP with
  | some ip =>
    { c with
      Dialer :=
        { c.Dialer with
          NetDialContext := some { LocalAddr := some { IP := ip } } } }
  | none => c

/-- What a run of `main` comes to.  `stdout` and `logged` are the lines the
goroutine of `main` prints and logs.  `outcome` is what the goroutine of `main`
comes to when nothing else ends the process before: the message of its
`log.Fatal` call, or the runner whose `RunTestsInLoop` it enters.
`serverFatal` is the message of the `log.Fatal` call of the goroutine of lines
247-250, which ends the process at the moment `http.ListenAndServe` returns,
wherever the goroutine of `main` is by then; it is `none` when that goroutine
is never started or `http.ListenAndServe` never returns. -/
structure MainResult where
  stdout : List GoString
  logged : List GoString
  serverFatal : Option GoString
  outcome : Except GoString Runner

/-- Function `main`, from `flag.Parse()` having returned `flags` up to the
call `r.RunTestsInLoop()`. -/
def main (env : Env) (flags : Flags) : MainResult :=
  match startProfile env flags with
  | (logged, some err) =>
    { stdout := []
      logged := logged ++ [err]
      serverFatal := none
      outcome := Except.error err }
  | (logged, none) =>
    let resolved := resolveDirections env.params flags
    let flags := resolved.1
    let validated := validateSourceIP env flags
    let sourceIP := validated.1
    let stdout := resolved.2 ++ validated.2
    let e := buildEmitter
    let serverFatal := env.ListenAndServe flags.flagListen
    let config : MemorylessConfig :=
      { Expected := flags.flagPeriodMean
        Min := flags.flagPeriodMin
        Max := flags.flagPeriodMax }
    match env.NewTicker config with
    | some err =>
      let msg := str "Failed to create memoryless.Ticker: " ++ err
      { stdout := stdout
        logged := logged ++ [msg]
        serverFatal := serverFatal
        outcome := Except.error msg }
    | none =>
      let r :=
        runner.New
          { Download := flags.flagDownload
            Upload := flags.flagUpload
            Timeout := flags.flagTimeout
            ClientFactory := ClientFactory env flags sourceIP }
          e
          { config := config }
      { stdout := stdout
        logged := logged
        serverFatal := serverFatal
        outcome := Except.ok r }

/-- Lines 10-12 of the package documentation: the client discovers a server
through the locate service unless `-server` or `-service-url` overrides that.
A client targets auto-discovery when it carries neither a service URL nor a
server name. -/
def targetsAutoDiscovery (c : Client) : Bool :=
  c.ServiceURL.isNone && c.Server == str ""

/-! ## Sample inputs -/

/-- The ndt7 markers: the package documentation (line 18) names
`/ndt/v7/download` as the protocol part of a service URL. -/
def sampleParams : Params :=
  { DownloadURLPath := str "/ndt/v7/download"
    UploadURLPath := str "/ndt/v7/upload" }

/-- A client constructor leaving every field `main` assigns at its zero
value, with `"wss"` as the scheme. -/
def sampleNewClient (name version : GoString) : Client :=
  { ClientName := name
    ClientVersion := version
    ServiceURL := none
    Server := str ""
    Scheme := str "wss"
    Dialer := { TLSClientConfig := none, NetDialContext := none } }

/-- The address `192.0.2.7` in the 16-byte form of `net.IP`. -/
def sampleIP : IP := [0, 0, 0, 0, 0, 0, 0, 0, 0, 0, 255, 255, 192, 0, 2, 7]

/-- An address parser that knows `192.0.2.7` and nothing else. -/
def sampleParseIP (s : GoString) : Option IP :=
  if s = str "192.0.2.7" then some sampleIP else none

/-- A machine with AES instructions on which nothing fails. -/
def sampleEnv : Env :=
  { cpu := { ARM64HasAES := false, ARMHasAES := false, X86HasAES := true }
    params := sampleParams
    Version := str "1.0.0"
    ParseIP := sampleParseIP
    NewClient := sampleNewClient
    osCreate := fun _ => none
    StartCPUProfile := fun _ => none
    ListenAndServe := fun _ => none
    NewTicker := fun _ => none }

/-- The same machine without AES instructions. -/
def sampleEnvNoAES : Env :=
  { sampleEnv with cpu := { ARM64HasAES := false, ARMHasAES := false, X86HasAES := false } }

/-- The service URL `wss://ndt.example.org/ndt/v7/download?access_token=t`. -/
def downloadURL : URL :=
  { Scheme := str "wss"
    Host := str "ndt.example.org"
    Path := str "/ndt/v7/download"
    RawQuery := str "access_token=t" }

/-- The service URL `wss://ndt.example.org/ndt/v7/upload?access_token=t`. -/
def uploadURL : URL :=
  { downloadURL with Path := str "/ndt/v7/upload" }

/-- The service URL `wss://ndt.example.org/ndt/v5/test?access_token=t`. -/
def otherURL : URL :=
  { downloadURL with Path := str "/ndt/v5/test" }

/-- The service URL `wss://ndt.example.org/ndt/v7/upload/ndt/v7/download`. -/
def bothURL : URL :=
  { downloadURL with Path := str "/ndt/v7/upload/ndt/v7/download", RawQuery := str "" }

/-- The ticker built from the default periods. -/
def sampleTicker : Ticker :=
  { config := { Expected := 6 * Hour, Min := 36 * Minute, Max := 15 * Hour } }

/-- The flags `-service-url wss://ndt.example.org/ndt/v7/download?access_token=t
-upload=true -download=false`. -/
def downloadURLFlags : Flags :=
  { defaultFlags sampleEnv.cpu with
    flagService := some downloadURL, flagUpload := true, flagDownload := false }

/-- The flags `-service-url wss://ndt.example.org/ndt/v7/upload?access_token=t
-upload=false`. -/
def uploadURLFlags : Flags :=
  { defaultFlags sampleEnv.cpu with flagService := some uploadURL, flagUpload := false }

/-- The flags `-service-url wss://ndt.example.org/ndt/v5/test?access_token=t
-upload=false -server ndt.example.net`. -/
def otherURLFlags : Flags :=
  { defaultFlags sampleEnv.cpu with
    flagService := some otherURL, flagUpload := false, flagServer := str "ndt.example.net" }

/-- The flags `-service-url wss://ndt.example.org/ndt/v5/test?access_token=t`. -/
def otherURLDefaultFlags : Flags :=
  { defaultFlags sampleEnv.cpu with flagService := some otherURL }

/-- The flags `-source-ip not-an-address`. -/
def badSourceIPFlags : Flags :=
  { defaultFlags sampleEnv.cpu with flagSourceIP := str "not-an-address" }

/-- The flags `-source-ip 192.0.2.7`. -/
def goodSourceIPFlags : Flags :=
  { defaultFlags sampleEnv.cpu with flagSourceIP := str "192.0.2.7" }

/-- The flags `-server ndt.example.net
-service-url wss://ndt.example.org/ndt/v7/download?access_token=t`. -/
def serverAndURLFlags : Flags :=
  { defaultFlags sampleEnv.cpu with
    flagServer := str "ndt.example.net", flagService := some downloadURL }

/-- The flags `-server ndt.example.net` alone. -/
def serverOnlyFlags : Flags :=
  { defaultFlags sampleEnv.cpu with flagServer := str "ndt.example.net" }

/-- The flags `-service-url wss://ndt.example.org/ndt/v7/upload/ndt/v7/download
-upload=true -download=false`. -/
def bothURLFlags : Flags :=
  { defaultFlags sampleEnv.cpu with
    flagService := some bothURL, flagUpload := true, flagDownload := false }

/-! ## Facts shared by the proofs -/

theorem startsWith_iff_isPrefix (s substr : GoString) :
    strings.startsWith s substr = true ↔ substr <+: s := by
  induction s generalizing substr with
  | nil =>
    cases substr with
    | nil => simp [strings.startsWith]
    | cons d t => simp [strings.startsWith]
  | cons c s ih =>
    cases substr with
    | nil => simp [strings.startsWith]
    | cons d t =>
      simp only [strings.startsWith, Bool.and_eq_true, beq_iff_eq, ih, List.cons_prefix_cons]
      constructor <;> rintro ⟨h1, h2⟩ <;> exact ⟨h1.symm, h2⟩

/-- The function `strings.Contains` decides whether `substr` is a contiguous
part of `s`. -/
theorem Contains_iff_isInfix (s substr : GoString) :
    strings.Contains s substr = true ↔ substr <:+: s := by
  induction s with
  | nil =>
    simp only [strings.Contains, startsWith_iff_isPrefix, List.prefix_nil, List.infix_nil]
  | cons c s ih =>
    simp only [strings.Contains, Bool.or_eq_true, startsWith_iff_isPrefix, ih,
      List.infix_cons_iff]

/-- The direction resolution assigns to `flagUpload`, `flagDownload` and
`flagService.URL` only. -/
theorem resolveDirections_frame (p : Params) (flags : Flags) :
    (resolveDirections p flags).1.flagProfile = flags.flagProfile ∧
    (resolveDirections p flags).1.flagScheme = flags.flagScheme ∧
    (resolveDirections p flags).1.flagNoVerify = flags.flagNoVerify ∧
    (resolveDirections p flags).1.flagServer = flags.flagServer ∧
    (resolveDirections p flags).1.flagTimeout = flags.flagTimeout ∧
    (resolveDirections p flags).1.flagSourceIP = flags.flagSourceIP ∧
    (resolveDirections p flags).1.flagPeriodMean = flags.flagPeriodMean ∧
    (resolveDirections p flags).1.flagPeriodMin = flags.flagPeriodMin ∧
    (resolveDirections p flags).1.flagPeriodMax = flags.flagPeriodMax ∧
    (resolveDirections p flags).1.flagListen = flags.flagListen := by
  unfold resolveDirections
  cases flags.flagService with
  | none => simp
  | some u =>
    by_cases hd : strings.Contains u.Path p.DownloadURLPath = true
    · simp [hd]
    · by_cases hup : strings.Contains u.Path p.UploadURLPath = true
      · simp [hd, hup]
      · simp [hd, hup]

/-- The runner `main` enters the loop with, written out. -/
theorem main_runner (env : Env) (flags : Flags) (r : Runner)
    (hr : (main env flags).outcome = Except.ok r) :
    r =
      runner.New
        { Download := (resolveDirections env.params flags).1.flagDownload
          Upload := (resolveDirections env.params flags).1.flagUpload
          Timeout := flags.flagTimeout
          ClientFactory :=
            ClientFactory env (resolveDirections env.params flags).1
              (validateSourceIP env (resolveDirections env.params flags).1).1 }
        buildEmitter
        { config :=
            { Expected := flags.flagPeriodMean
              Min := flags.flagPeriodMin
              Max := flags.flagPeriodMax } } := by
  obtain ⟨-, -, -, -, hT, -, h1, h2, h3, -⟩ := resolveDirections_frame env.params flags
  unfold main at hr
  split at hr
  · simp at hr
  · simp only at hr
    split at hr
    · simp at hr
    · simp only [Except.ok.injEq] at hr
      rw [← hr, hT, h1, h2, h3]

/-- Once profiling has not ended the process, the goroutine of lines 247-250
is started, and it ends the process exactly when `http.ListenAndServe`
returns for the `-listen` address. -/
theorem main_serverFatal (env : Env) (flags : Flags)
    (hp : (startProfile env flags).2 = none) :
    (main env flags).serverFatal = env.ListenAndServe flags.flagListen := by
  have hL := (resolveDirections_frame env.params flags).2.2.2.2.2.2.2.2.2
  unfold main
  split
  · rename_i logged err h
    rw [h] at hp
    cases hp
  · simp only [hL]
    split <;> rfl

/-- What the goroutine of `main` comes to, written out. -/
theorem main_outcome (env : Env) (flags : Flags) :
    (main env flags).outcome =
      match (startProfile env flags).2 with
      | some err => Except.error err
      | none =>
        match env.NewTicker
            { Expected := flags.flagPeriodMean
              Min := flags.flagPeriodMin
              Max := flags.flagPeriodMax } with
        | some err => Except.error (str "Failed to create memoryless.Ticker: " ++ err)
        | none =>
          Except.ok
            (runner.New
              { Download := (resolveDirections env.params flags).1.flagDownload
                Upload := (resolveDirections env.params flags).1.flagUpload
                Timeout := flags.flagTimeout
                ClientFactory :=
                  ClientFactory env (resolveDirections env.params flags).1
                    (validateSourceIP env (resolveDirections env.params flags).1).1 }
              buildEmitter
              { config :=
                  { Expected := flags.flagPeriodMean
                    Min := flags.flagPeriodMin
                    Max := flags.flagPeriodMax } }) := by
  obtain ⟨-, -, -, -, hT, -, h1, h2, h3, -⟩ := resolveDirections_frame env.params flags
  unfold main
  split
  · rename_i logged err hp
    simp [hp]
  · rename_i logged hp
    simp only [hp, h1, h2, h3, hT]
    split
    · rename_i err ht
      simp [ht]
    · rename_i ht
      simp [ht]

/-- The clients `ClientFactory` builds depend on four of the flag variables
only. -/
theorem ClientFactory_congr (env : Env) (f g : Flags) (sourceIP : Option IP)
    (h1 : f.flagService = g.flagService) (h2 : f.flagServer = g.flagServer)
    (h3 : f.flagScheme = g.flagScheme) (h4 : f.flagNoVerify = g.flagNoVerify) :
    ClientFactory env f sourceIP = ClientFactory env g sourceIP := by
  funext x
  simp only [ClientFactory, h1, h2, h3, h4]

/-- The fields of a client that `ClientFactory` assigns from the flags. -/
theorem ClientFactory_fields (env : Env) (f : Flags) (sourceIP : Option IP) :
    (ClientFactory env f sourceIP ()).ServiceURL = f.flagService ∧
    (ClientFactory env f sourceIP ()).Server = f.flagServer ∧
    (ClientFactory env f sourceIP ()).Scheme = f.flagScheme ∧
    (ClientFactory env f sourceIP ()).Dialer.TLSClientConfig =
      some { InsecureSkipVerify := f.flagNoVerify } := by
  cases sourceIP <;> simp [ClientFactory]

/-- The field `NetDialContext` of the clients `ClientFactory` builds. -/
theorem ClientFactory_NetDialContext (env : Env) (f : Flags) (sourceIP : Option IP) :
    (ClientFactory env f sourceIP ()).Dialer.NetDialContext =
      match sourceIP with
      | some ip => some { LocalAddr := some { IP := ip } }
      | none => (env.NewClient ClientName env.Version).Dialer.NetDialContext := by
  cases sourceIP <;> simp [ClientFactory]

/-- The direction resolution does not read the flags it leaves alone: here
`-source-ip`. -/
theorem resolveDirections_flagSourceIP (p : Params) (flags : Flags) (s : GoString) :
    (resolveDirections p { flags with flagSourceIP := s }).1 =
      { (resolveDirections p flags).1 with flagSourceIP := s } := by
  obtain ⟨f1, f2, f3, f4, f5, f6, f7, f8, f9, f10, f11, f12, f13⟩ := flags
  unfold resolveDirections
  cases f6 with
  | none => simp
  | some u =>
    by_cases hd : strings.Contains u.Path p.DownloadURLPath = true
    · simp [hd]
    · by_cases hup : strings.Contains u.Path p.UploadURLPath = true
      · simp [hd, hup]
      · simp [hd, hup]

/-- The direction resolution does not read the flags it leaves alone: here
`-server`. -/
theorem resolveDirections_flagServer (p : Params) (flags : Flags) (s : GoString) :
    (resolveDirections p { flags with flagServer := s }).1 =
      { (resolveDirections p flags).1 with flagServer := s } := by
  obtain ⟨f1, f2, f3, f4, f5, f6, f7, f8, f9, f10, f11, f12, f13⟩ := flags
  unfold resolveDirections
  cases f6 with
  | none => simp
  | some u =>
    by_cases hd : strings.Contains u.Path p.DownloadURLPath = true
    · simp [hd]
    · by_cases hup : strings.Contains u.Path p.UploadURLPath = true
      · simp [hd, hup]
      · simp [hd, hup]

/-- Two flag settings that agree on what `main` reads after the validation
blocks lead `main` to the same outcome. -/
theorem main_outcome_congr (env : Env) (f g : Flags)
    (hP : f.flagProfile = g.flagProfile)
    (h1 : f.flagPeriodMean = g.flagPeriodMean)
    (h2 : f.flagPeriodMin = g.flagPeriodMin)
    (h3 : f.flagPeriodMax = g.flagPeriodMax)
    (hT : f.flagTimeout = g.flagTimeout)
    (hD : (resolveDirections env.params f).1.flagDownload =
      (resolveDirections env.params g).1.flagDownload)
    (hU : (resolveDirections env.params f).1.flagUpload =
      (resolveDirections env.params g).1.flagUpload)
    (hC : ClientFactory env (resolveDirections env.params f).1
        (validateSourceIP env (resolveDirections env.params f).1).1 =
      ClientFactory env (resolveDirections env.params g).1
        (validateSourceIP env (resolveDirections env.params g).1).1) :
    (main env f).outcome = (main env g).outcome := by
  have hS : startProfile env f = startProfile env g := by
    simp only [startProfile, hP]
  rw [main_outcome, main_outcome, hS, h1, h2, h3, hT, hD, hU, hC]

/-- A runner with download on and upload off starts one download test, and
nothing else, in each of its cycles. -/
theorem RunTestsInLoop_download_only (r : Runner) (hd : r.opt.Download = true)
    (hu : r.opt.Upload = false) (ticks : Nat) :
    r.RunTestsInLoop ticks = List.replicate ticks [TestDirection.Download] := by
  induction ticks with
  | zero => rfl
  | succ n ih =>
    simp [Runner.RunTestsInLoop, Runner.RunTestsOnce, hd, hu, ih, List.replicate_succ]

/-! ## The claims -/

/-- C1: when the service URL is set and its path contains the download marker,
the direction resolution sets upload off and download on and keeps the
service URL, whatever `-upload` and `-download` were; the options the runner
is built with carry these values, every client gets the service URL, and every
cycle of the runner loop, for any number of ticks, starts a download test and
no upload test. -/
theorem C1_download_endpoint_disables_upload (env : Env) (flags : Flags) (u : URL) (r : Runner)
    (hu : flags.flagService = some u)
    (hd : strings.Contains u.Path env.params.DownloadURLPath = true)
    (hr : (main env flags).outcome = Except.ok r) :
    (resolveDirections env.params flags).1.flagUpload = false ∧
    (resolveDirections env.params flags).1.flagDownload = true ∧
    (resolveDirections env.params flags).1.flagService = some u ∧
    r.opt.Upload = false ∧ r.opt.Download = true ∧
    (r.opt.ClientFactory ()).ServiceURL = some u ∧
    (∀ ticks, r.RunTestsInLoop ticks = List.replicate ticks [TestDirection.Download]) ∧
    (∀ ticks cycle, cycle ∈ r.RunTestsInLoop ticks → TestDirection.Upload ∉ cycle) := by
  have h1 : (resolveDirections env.params flags).1.flagUpload = false := by
    simp [resolveDirections, hu, hd]
  have h2 : (resolveDirections env.params flags).1.flagDownload = true := by
    simp [resolveDirections, hu, hd]
  have h3 : (resolveDirections env.params flags).1.flagService = some u := by
    simp [resolveDirections, hu, hd]
  have hR := main_runner env flags r hr
  have h4 : r.opt.Upload = false := by rw [hR]; exact h1
  have h5 : r.opt.Download = true := by rw [hR]; exact h2
  have h6 : (r.opt.ClientFactory ()).ServiceURL = some u := by
    rw [hR]
    simp only [runner.New, ClientFactory, h3]
    split <;> rfl
  have h7 := RunTestsInLoop_download_only r h5 h4
  refine ⟨h1, h2, h3, h4, h5, h6, h7, ?_⟩
  intro ticks cycle hc
  rw [h7 ticks] at hc
  rw [List.eq_of_mem_replicate hc]
  decide

/-- Witness of C1: a download service URL given with `-upload=true
-download=false`; two ticks run two download-only cycles. -/
theorem C1_witness :
    downloadURLFlags.flagService = some downloadURL ∧
    strings.Contains downloadURL.Path sampleEnv.params.DownloadURLPath = true ∧
    (main sampleEnv downloadURLFlags).outcome =
      Except.ok
        (runner.New
          { Download := true
            Upload := false
            Timeout := defaultTimeout
            ClientFactory :=
              ClientFactory sampleEnv
                { downloadURLFlags with flagUpload := false, flagDownload := true } none }
          buildEmitter sampleTicker) ∧
    (runner.New
          { Download := true
            Upload := false
            Timeout := defaultTimeout
            ClientFactory :=
              ClientFactory sampleEnv
                { downloadURLFlags with flagUpload := false, flagDownload := true } none }
          buildEmitter sampleTicker).RunTestsInLoop 2 =
      [[TestDirection.Download], [TestDirection.Download]] :=
  ⟨rfl, by decide, rfl,
    (C1_download_endpoint_disables_upload sampleEnv downloadURLFlags downloadURL _ rfl
      (by decide) rfl).2.2.2.2.2.2.1 2⟩

/-- C2: when the service URL is set and its path contains the upload marker
and not the download marker, the direction resolution sets download off and
upload on and keeps the service URL, whatever `-upload` and `-download` were;
the options the runner is built with carry these values. -/
theorem C2_upload_endpoint_disables_download (env : Env) (flags : Flags) (u : URL) (r : Runner)
    (hu : flags.flagService = some u)
    (hd : strings.Contains u.Path env.params.DownloadURLPath = false)
    (hup : strings.Contains u.Path env.params.UploadURLPath = true)
    (hr : (main env flags).outcome = Except.ok r) :
    (resolveDirections env.params flags).1.flagDownload = false ∧
    (resolveDirections env.params flags).1.flagUpload = true ∧
    (resolveDirections env.params flags).1.flagService = some u ∧
    r.opt.Download = false ∧ r.opt.Upload = true ∧
    (r.opt.ClientFactory ()).ServiceURL = some u := by
  have h1 : (resolveDirections env.params flags).1.flagDownload = false := by
    simp [resolveDirections, hu, hd, hup]
  have h2 : (resolveDirections env.params flags).1.flagUpload = true := by
    simp [resolveDirections, hu, hd, hup]
  have h3 : (resolveDirections env.params flags).1.flagService = some u := by
    simp [resolveDirections, hu, hd, hup]
  have hR := main_runner env flags r hr
  refine ⟨h1, h2, h3, by rw [hR]; exact h1, by rw [hR]; exact h2, ?_⟩
  rw [hR]
  simp only [runner.New, ClientFactory, h3]
  split <;> rfl

/-- Witness of C2: an upload service URL given with `-upload=false`. -/
theorem C2_witness :
    uploadURLFlags.flagService = some uploadURL ∧
    strings.Contains uploadURL.Path sampleEnv.params.DownloadURLPath = false ∧
    strings.Contains uploadURL.Path sampleEnv.params.UploadURLPath = true ∧
    (main sampleEnv uploadURLFlags).outcome =
      Except.ok
        (runner.New
          { Download := false
            Upload := true
            Timeout := defaultTimeout
            ClientFactory :=
              ClientFactory sampleEnv
                { uploadURLFlags with flagUpload := true, flagDownload := false } none }
          buildEmitter sampleTicker) ∧
    (resolveDirections sampleEnv.params uploadURLFlags).1.flagDownload = false ∧
    (resolveDirections sampleEnv.params uploadURLFlags).1.flagUpload = true :=
  ⟨rfl, by decide, by decide, rfl,
    (C2_upload_endpoint_disables_download sampleEnv uploadURLFlags uploadURL _ rfl
      (by decide) (by decide) rfl).1,
    (C2_upload_endpoint_disables_download sampleEnv uploadURLFlags uploadURL _ rfl
      (by decide) (by decide) rfl).2.1⟩

/-- Counterexample to C3 as stated: the path of the service URL contains
neither marker, `-upload=false` and `-server ndt.example.net` are given; the
service URL is discarded, but upload stays off and every client keeps the
server name, so it does not target auto-discovery. -/
theorem C3_counterexample :
    otherURLFlags.flagService = some otherURL ∧
    strings.Contains otherURL.Path sampleEnv.params.DownloadURLPath = false ∧
    strings.Contains otherURL.Path sampleEnv.params.UploadURLPath = false ∧
    (resolveDirections sampleEnv.params otherURLFlags).1.flagService = none ∧
    (resolveDirections sampleEnv.params otherURLFlags).1.flagUpload = false ∧
    (main sampleEnv otherURLFlags).outcome =
      Except.ok
        (runner.New
          { Download := true
            Upload := false
            Timeout := defaultTimeout
            ClientFactory :=
              ClientFactory sampleEnv { otherURLFlags with flagService := none } none }
          buildEmitter sampleTicker) ∧
    targetsAutoDiscovery
      (ClientFactory sampleEnv { otherURLFlags with flagService := none } none ()) = false :=
  ⟨rfl, by decide, by decide, by decide, by decide, rfl, by decide⟩

/-- C3, amended: when the service URL is set and its path contains neither
marker, the direction resolution prints a warning, discards the service URL
and changes no other flag.  The runner is built with the values `-download`
and `-upload` had, so both directions are enabled when both flags were true
(their defaults); no client carries a service URL, every client carries the
`-server` name, and clients target auto-discovery exactly when `-server` is
empty. -/
theorem C3_unsupported_endpoint_is_discarded (env : Env) (flags : Flags) (u : URL) (r : Runner)
    (hu : flags.flagService = some u)
    (hd : strings.Contains u.Path env.params.DownloadURLPath = false)
    (hup : strings.Contains u.Path env.params.UploadURLPath = false)
    (hr : (main env flags).outcome = Except.ok r) :
    resolveDirections env.params flags =
      ({ flags with flagService := none }, [str "WARNING: ignoring unsupported service url"]) ∧
    r.opt.Download = flags.flagDownload ∧
    r.opt.Upload = flags.flagUpload ∧
    (flags.flagDownload = true → flags.flagUpload = true →
      r.opt.Download = true ∧ r.opt.Upload = true) ∧
    (r.opt.ClientFactory ()).ServiceURL = none ∧
    (r.opt.ClientFactory ()).Server = flags.flagServer ∧
    (targetsAutoDiscovery (r.opt.ClientFactory ()) = true ↔ flags.flagServer = str "") := by
  have h0 : resolveDirections env.params flags =
      ({ flags with flagService := none },
        [str "WARNING: ignoring unsupported service url"]) := by
    simp [resolveDirections, hu, hd, hup]
  have hR := main_runner env flags r hr
  rw [h0] at hR
  have h1 : r.opt.Download = flags.flagDownload := by rw [hR]; rfl
  have h2 : r.opt.Upload = flags.flagUpload := by rw [hR]; rfl
  have h3 : (r.opt.ClientFactory ()).ServiceURL = none := by
    rw [hR]
    simp only [runner.New, ClientFactory]
    split <;> rfl
  have h4 : (r.opt.ClientFactory ()).Server = flags.flagServer := by
    rw [hR]
    simp only [runner.New, ClientFactory]
    split <;> rfl
  refine ⟨h0, h1, h2, ?_, h3, h4, ?_⟩
  · intro hdl hul
    exact ⟨h1.trans hdl, h2.trans hul⟩
  · simp [targetsAutoDiscovery, h3, h4]

/-- Witness of C3, amended: an unsupported service URL with every other flag
at its default; both directions are enabled and clients target
auto-discovery. -/
theorem C3_witness :
    otherURLDefaultFlags.flagService = some otherURL ∧
    strings.Contains otherURL.Path sampleEnv.params.DownloadURLPath = false ∧
    strings.Contains otherURL.Path sampleEnv.params.UploadURLPath = false ∧
    (main sampleEnv otherURLDefaultFlags).outcome =
      Except.ok
        (runner.New
          { Download := true
            Upload := true
            Timeout := defaultTimeout
            ClientFactory :=
              ClientFactory sampleEnv { otherURLDefaultFlags with flagService := none } none }
          buildEmitter sampleTicker) ∧
    targetsAutoDiscovery
      (ClientFactory sampleEnv { otherURLDefaultFlags with flagService := none } none ()) =
        true :=
  ⟨rfl, by decide, by decide, rfl,
    (C3_unsupported_endpoint_is_discarded sampleEnv otherURLDefaultFlags otherURL
      (runner.New
          { Download := true
            Upload := true
            Timeout := defaultTimeout
            ClientFactory :=
              ClientFactory sampleEnv { otherURLDefaultFlags with flagService := none } none }
          buildEmitter sampleTicker)
      rfl (by decide) (by decide) rfl).2.2.2.2.2.2.mpr rfl⟩

/-- C4: for a non-empty `-source-ip` that `net.ParseIP` rejects, the
validation prints a warning and leaves `sourceIP` nil; `main` then comes to
the very outcome it comes to with an empty `-source-ip` (the same fatal error
or the same runner, so the source address is never what ends startup), and
every client keeps the `NetDialContext` that `ndt7.NewClient` gave it.  For a
`-source-ip` that parses to `ip`, every client dials through a `net.Dialer`
whose local address is the TCP address with IP `ip`. -/
theorem C4_source_ip_validation (env : Env) (flags : Flags)
    (hne : flags.flagSourceIP ≠ str "") :
    (env.ParseIP flags.flagSourceIP = none →
      validateSourceIP env flags =
        (none, [str "WARNING: ignoring unparsed source IP: " ++ flags.flagSourceIP]) ∧
      (main env flags).outcome = (main env { flags with flagSourceIP := str "" }).outcome ∧
      ∀ r, (main env flags).outcome = Except.ok r →
        (r.opt.ClientFactory ()).Dialer.NetDialContext =
          (env.NewClient ClientName env.Version).Dialer.NetDialContext) ∧
    (∀ ip, env.ParseIP flags.flagSourceIP = some ip →
      validateSourceIP env flags = (some ip, []) ∧
      ∀ r, (main env flags).outcome = Except.ok r →
        (r.opt.ClientFactory ()).Dialer.NetDialContext =
          some { LocalAddr := some { IP := ip } }) := by
  have hsrc := (resolveDirections_frame env.params flags).2.2.2.2.2.1
  constructor
  · intro hp
    have hv : validateSourceIP env flags =
        (none, [str "WARNING: ignoring unparsed source IP: " ++ flags.flagSourceIP]) := by
      simp [validateSourceIP, hne, hp]
    have hv1 : (validateSourceIP env (resolveDirections env.params flags).1).1 = none := by
      simp [validateSourceIP, hsrc, hne, hp]
    have hv2 : (validateSourceIP env
        (resolveDirections env.params { flags with flagSourceIP := str "" }).1).1 = none := by
      rw [resolveDirections_flagSourceIP env.params flags (str "")]
      simp [validateSourceIP]
    refine ⟨hv, ?_, ?_⟩
    · refine main_outcome_congr env _ _ rfl rfl rfl rfl rfl ?_ ?_ ?_
      · rw [resolveDirections_flagSourceIP env.params flags (str "")]
      · rw [resolveDirections_flagSourceIP env.params flags (str "")]
      · rw [hv1, hv2, resolveDirections_flagSourceIP env.params flags (str "")]
        exact ClientFactory_congr env _ _ none rfl rfl rfl rfl
    · intro r hr
      rw [main_runner env flags r hr]
      simp only [runner.New, hv1]
      exact ClientFactory_NetDialContext env _ none
  · intro ip hp
    have hv : validateSourceIP env flags = (some ip, []) := by
      simp [validateSourceIP, hne, hp]
    have hv1 : (validateSourceIP env (resolveDirections env.params flags).1).1 = some ip := by
      simp [validateSourceIP, hsrc, hne, hp]
    refine ⟨hv, ?_⟩
    intro r hr
    rw [main_runner env flags r hr]
    simp only [runner.New, hv1]
    exact ClientFactory_NetDialContext env _ (some ip)

/-- Witness of C4: `-source-ip not-an-address` starts the runner of the
default flags, whose clients have no `NetDialContext`; `-source-ip 192.0.2.7`
starts a runner whose clients dial from that address. -/
theorem C4_witness :
    (badSourceIPFlags.flagSourceIP ≠ str "" ∧
      sampleEnv.ParseIP badSourceIPFlags.flagSourceIP = none ∧
      (main sampleEnv badSourceIPFlags).outcome =
        (main sampleEnv { badSourceIPFlags with flagSourceIP := str "" }).outcome ∧
      (main sampleEnv badSourceIPFlags).outcome =
        Except.ok
          (runner.New
            { Download := true
              Upload := true
              Timeout := defaultTimeout
              ClientFactory := ClientFactory sampleEnv badSourceIPFlags none }
            buildEmitter sampleTicker) ∧
      (ClientFactory sampleEnv badSourceIPFlags none ()).Dialer.NetDialContext = none) ∧
    (goodSourceIPFlags.flagSourceIP ≠ str "" ∧
      sampleEnv.ParseIP goodSourceIPFlags.flagSourceIP = some sampleIP ∧
      (main sampleEnv goodSourceIPFlags).outcome =
        Except.ok
          (runner.New
            { Download := true
              Upload := true
              Timeout := defaultTimeout
              ClientFactory := ClientFactory sampleEnv goodSourceIPFlags (some sampleIP) }
            buildEmitter sampleTicker) ∧
      (ClientFactory sampleEnv goodSourceIPFlags (some sampleIP) ()).Dialer.NetDialContext =
        some { LocalAddr := some { IP := sampleIP } }) :=
  ⟨⟨by decide, by decide,
      ((C4_source_ip_validation sampleEnv badSourceIPFlags (by decide)).1 (by decide)).2.1,
      rfl,
      ((C4_source_ip_validation sampleEnv badSourceIPFlags (by decide)).1 (by decide)).2.2
        (runner.New
            { Download := true
              Upload := true
              Timeout := defaultTimeout
              ClientFactory := ClientFactory sampleEnv badSourceIPFlags none }
            buildEmitter sampleTicker) rfl⟩,
    ⟨by decide, by decide, rfl,
      ((C4_source_ip_validation sampleEnv goodSourceIPFlags (by decide)).2 sampleIP
        (by decide)).2
        (runner.New
            { Download := true
              Upload := true
              Timeout := defaultTimeout
              ClientFactory := ClientFactory sampleEnv goodSourceIPFlags (some sampleIP) }
            buildEmitter sampleTicker) rfl⟩⟩

/-- Counterexample to C5 as stated: with `-server ndt.example.net` and a
download service URL, upload is off and every client is handed the service
URL; with the same flags and no `-service-url`, upload is on and no client has
a service URL. -/
theorem C5_counterexample :
    serverAndURLFlags.flagServer ≠ str "" ∧
    serverOnlyFlags = { serverAndURLFlags with flagService := none } ∧
    (main sampleEnv serverAndURLFlags).outcome =
      Except.ok
        (runner.New
          { Download := true
            Upload := false
            Timeout := defaultTimeout
            ClientFactory := ClientFactory sampleEnv
              { serverAndURLFlags with flagUpload := false, flagDownload := true } none }
          buildEmitter sampleTicker) ∧
    (main sampleEnv serverOnlyFlags).outcome =
      Except.ok
        (runner.New
          { Download := true
            Upload := true
            Timeout := defaultTimeout
            ClientFactory := ClientFactory sampleEnv serverOnlyFlags none }
          buildEmitter sampleTicker) ∧
    (ClientFactory sampleEnv
      { serverAndURLFlags with flagUpload := false, flagDownload := true } none ()).ServiceURL =
        some downloadURL ∧
    (ClientFactory sampleEnv serverOnlyFlags none ()).ServiceURL = none :=
  ⟨by decide, by decide, rfl, rfl, by decide, by decide⟩

/-- C5, amended: the `-server` name has no effect on the direction resolution
or on the service URL.  For every startup configuration the enabled
directions and the service URL handed to each client are those obtained from
the same flags with an empty `-server`: the service URL left by the direction
resolution; the `-server` name is handed to each client as its `Server`, next
to the service URL. -/
theorem C5_server_does_not_override_service_url (env : Env) (flags : Flags) (r r0 : Runner)
    (hr : (main env flags).outcome = Except.ok r)
    (hr0 : (main env { flags with flagServer := str "" }).outcome = Except.ok r0) :
    r.opt.Download = r0.opt.Download ∧
    r.opt.Upload = r0.opt.Upload ∧
    (r.opt.ClientFactory ()).ServiceURL = (r0.opt.ClientFactory ()).ServiceURL ∧
    (r.opt.ClientFactory ()).ServiceURL = (resolveDirections env.params flags).1.flagService ∧
    (r.opt.ClientFactory ()).Server = flags.flagServer := by
  have hsrv := (resolveDirections_frame env.params flags).2.2.2.1
  have hR := main_runner env flags r hr
  have hR0 := main_runner env _ r0 hr0
  rw [resolveDirections_flagServer env.params flags (str "")] at hR0
  have hF := ClientFactory_fields env (resolveDirections env.params flags).1
    (validateSourceIP env (resolveDirections env.params flags).1).1
  have hF0 := ClientFactory_fields env
    { (resolveDirections env.params flags).1 with flagServer := str "" }
    (validateSourceIP env
      { (resolveDirections env.params flags).1 with flagServer := str "" }).1
  have e1 : (r.opt.ClientFactory ()).ServiceURL =
      (resolveDirections env.params flags).1.flagService := by
    rw [hR]; exact hF.1
  have e2 : (r0.opt.ClientFactory ()).ServiceURL =
      (resolveDirections env.params flags).1.flagService := by
    rw [hR0]; exact hF0.1
  refine ⟨by rw [hR, hR0]; rfl, by rw [hR, hR0]; rfl, e1.trans e2.symm, e1, ?_⟩
  rw [hR]
  exact hF.2.1.trans hsrv

/-- Witness of C5, amended: `-server ndt.example.net` with a download service
URL, against the same service URL with no `-server`. -/
theorem C5_witness :
    (main sampleEnv serverAndURLFlags).outcome =
      Except.ok
        (runner.New
          { Download := true
            Upload := false
            Timeout := defaultTimeout
            ClientFactory := ClientFactory sampleEnv
              { serverAndURLFlags with flagUpload := false, flagDownload := true } none }
          buildEmitter sampleTicker) ∧
    (main sampleEnv { serverAndURLFlags with flagServer := str "" }).outcome =
      Except.ok
        (runner.New
          { Download := true
            Upload := false
            Timeout := defaultTimeout
            ClientFactory := ClientFactory sampleEnv
              { serverAndURLFlags with
                flagServer := str "", flagUpload := false, flagDownload := true } none }
          buildEmitter sampleTicker) ∧
    (ClientFactory sampleEnv
      { serverAndURLFlags with flagUpload := false, flagDownload := true } none ()).Server =
        str "ndt.example.net" :=
  ⟨rfl, rfl,
    (C5_server_does_not_override_service_url sampleEnv serverAndURLFlags
      (runner.New
          { Download := true
            Upload := false
            Timeout := defaultTimeout
            ClientFactory := ClientFactory sampleEnv
              { serverAndURLFlags with flagUpload := false, flagDownload := true } none }
          buildEmitter sampleTicker)
      _ rfl rfl).2.2.2.2⟩

/-- Counterexample to C6 as stated: on a machine none of whose three AES bits
is set, with `-scheme` not given, every client has the scheme `"ws"`, not
`"wss"`. -/
theorem C6_counterexample :
    (defaultFlags sampleEnvNoAES.cpu).flagScheme = defaultSchemeForArch sampleEnvNoAES.cpu ∧
    (main sampleEnvNoAES (defaultFlags sampleEnvNoAES.cpu)).outcome =
      Except.ok
        (runner.New
          { Download := true
            Upload := true
            Timeout := defaultTimeout
            ClientFactory :=
              ClientFactory sampleEnvNoAES (defaultFlags sampleEnvNoAES.cpu) none }
          buildEmitter sampleTicker) ∧
    (ClientFactory sampleEnvNoAES (defaultFlags sampleEnvNoAES.cpu) none ()).Scheme =
      str "ws" ∧
    (ClientFactory sampleEnvNoAES (defaultFlags sampleEnvNoAES.cpu) none ()).Scheme ≠
      str "wss" :=
  ⟨rfl, rfl, by decide, by decide⟩

/-- C6, amended: when `-scheme` is not given, so that `flagScheme.Value` still
is the value `defaultSchemeForArch` gave it, the scheme of every client is that
value: `"wss"` when at least one of `ARM64.HasAES`, `ARM.HasAES` and
`X86.HasAES` is set, and `"ws"` when none is. -/
theorem C6_default_scheme_follows_cpu (env : Env) (flags : Flags) (r : Runner)
    (hs : flags.flagScheme = (defaultFlags env.cpu).flagScheme)
    (hr : (main env flags).outcome = Except.ok r) :
    (r.opt.ClientFactory ()).Scheme = defaultSchemeForArch env.cpu ∧
    ((env.cpu.ARM64HasAES = true ∨ env.cpu.ARMHasAES = true ∨ env.cpu.X86HasAES = true) →
      (r.opt.ClientFactory ()).Scheme = str "wss") ∧
    ((env.cpu.ARM64HasAES = false ∧ env.cpu.ARMHasAES = false ∧ env.cpu.X86HasAES = false) →
      (r.opt.ClientFactory ()).Scheme = str "ws") := by
  have hsch := (resolveDirections_frame env.params flags).2.1
  have hR := main_runner env flags r hr
  have hF := ClientFactory_fields env (resolveDirections env.params flags).1
    (validateSourceIP env (resolveDirections env.params flags).1).1
  have e : (r.opt.ClientFactory ()).Scheme = defaultSchemeForArch env.cpu := by
    rw [hR]
    exact (hF.2.2.1.trans hsch).trans hs
  refine ⟨e, ?_, ?_⟩
  · intro h
    rw [e]
    rcases h with h | h | h <;> simp [defaultSchemeForArch, h]
  · rintro ⟨h1, h2, h3⟩
    rw [e]
    simp [defaultSchemeForArch, h1, h2, h3]

/-- Witness of C6, amended: the default flags on a machine with AES
instructions give every client the scheme `"wss"`. -/
theorem C6_witness :
    (defaultFlags sampleEnv.cpu).flagScheme = (defaultFlags sampleEnv.cpu).flagScheme ∧
    (main sampleEnv (defaultFlags sampleEnv.cpu)).outcome =
      Except.ok
        (runner.New
          { Download := true
            Upload := true
            Timeout := defaultTimeout
            ClientFactory := ClientFactory sampleEnv (defaultFlags sampleEnv.cpu) none }
          buildEmitter sampleTicker) ∧
    (ClientFactory sampleEnv (defaultFlags sampleEnv.cpu) none ()).Scheme = str "wss" :=
  ⟨rfl, rfl,
    (C6_default_scheme_follows_cpu sampleEnv (defaultFlags sampleEnv.cpu)
      (runner.New
          { Download := true
            Upload := true
            Timeout := defaultTimeout
            ClientFactory := ClientFactory sampleEnv (defaultFlags sampleEnv.cpu) none }
          buildEmitter sampleTicker)
      rfl rfl).2.1 (Or.inr (Or.inr rfl))⟩

/-- C7: after the direction resolution, whenever the service URL is still
set, exactly one of download and upload is enabled, and the marker of the
enabled direction occurs in the path of the service URL. -/
theorem C7_service_url_one_direction (p : Params) (flags : Flags) (u : URL)
    (hu : (resolveDirections p flags).1.flagService = some u) :
    ((resolveDirections p flags).1.flagDownload ≠ (resolveDirections p flags).1.flagUpload) ∧
    ((resolveDirections p flags).1.flagDownload = true →
      strings.Contains u.Path p.DownloadURLPath = true) ∧
    ((resolveDirections p flags).1.flagUpload = true →
      strings.Contains u.Path p.UploadURLPath = true) := by
  obtain ⟨f1, f2, f3, f4, f5, f6, f7, f8, f9, f10, f11, f12, f13⟩ := flags
  cases f6 with
  | none => simp [resolveDirections] at hu
  | some v =>
    by_cases hd : strings.Contains v.Path p.DownloadURLPath = true
    · have hv : v = u := by simpa [resolveDirections, hd] using hu
      subst hv
      simp [resolveDirections, hd]
    · by_cases hup : strings.Contains v.Path p.UploadURLPath = true
      · have hv : v = u := by simpa [resolveDirections, hd, hup] using hu
        subst hv
        simp [resolveDirections, hd, hup]
      · simp [resolveDirections, hd, hup] at hu

/-- Witness of C7: an upload service URL stays set, with upload as the one
enabled direction. -/
theorem C7_witness :
    (resolveDirections sampleParams uploadURLFlags).1.flagService = some uploadURL ∧
    (resolveDirections sampleParams uploadURLFlags).1.flagDownload = false ∧
    (resolveDirections sampleParams uploadURLFlags).1.flagUpload = true ∧
    ((resolveDirections sampleParams uploadURLFlags).1.flagDownload ≠
      (resolveDirections sampleParams uploadURLFlags).1.flagUpload) ∧
    strings.Contains uploadURL.Path sampleParams.UploadURLPath = true :=
  ⟨by decide, by decide, by decide,
    (C7_service_url_one_direction sampleParams uploadURLFlags uploadURL (by decide)).1,
    (C7_service_url_one_direction sampleParams uploadURLFlags uploadURL (by decide)).2.2
      (by decide)⟩

/-- C8: for every environment and every setting of the flags, the emitter of
the runner `main` builds is the Prometheus stage wrapping the Quiet stage
wrapping the HumanReadable stage, and the Prometheus stage holds, in this
order, the gauges `ndt7_download_throughput_bps`,
`ndt7_download_latency_seconds`, `ndt7_upload_throughput_bps` and
`ndt7_upload_latency_seconds`, each labelled by `client_ip` and `server_ip`,
and the gauge `ndt7_result_timestamp_seconds`, labelled by `test` and
`result`. -/
theorem C8_emitter_composition (env : Env) (flags : Flags) (r : Runner)
    (hr : (main env flags).outcome = Except.ok r) :
    r.e =
      Emitter.Prometheus (Emitter.Quiet Emitter.HumanReadable)
        { opts :=
            { Namespace := str "ndt7"
              Name := str "download_throughput_bps"
              Help := str "m-lab ndt7 download speed in bits/s" }
          labelNames := [str "client_ip", str "server_ip"] }
        { opts :=
            { Namespace := str "ndt7"
              Name := str "download_latency_seconds"
              Help := str "m-lab ndt7 download latency time in seconds" }
          labelNames := [str "client_ip", str "server_ip"] }
        { opts :=
            { Namespace := str "ndt7"
              Name := str "upload_throughput_bps"
              Help := str "m-lab ndt7 upload speed in bits/s" }
          labelNames := [str "client_ip", str "server_ip"] }
        { opts :=
            { Namespace := str "ndt7"
              Name := str "upload_latency_seconds"
              Help := str "m-lab ndt7 upload latency time in seconds" }
          labelNames := [str "client_ip", str "server_ip"] }
        { opts :=
            { Namespace := str "ndt7"
              Name := str "result_timestamp_seconds"
              Help := str "m-lab ndt7 test completion time in seconds since 1970-01-01" }
          labelNames := [str "test", str "result"] } := by
  rw [main_runner env flags r hr]
  rfl

/-- Witness of C8: with the default flags `main` builds a runner, whose
emitter is that one. -/
theorem C8_witness :
    (main sampleEnv (defaultFlags sampleEnv.cpu)).outcome =
      Except.ok
        (runner.New
          { Download := true
            Upload := true
            Timeout := defaultTimeout
            ClientFactory := ClientFactory sampleEnv (defaultFlags sampleEnv.cpu) none }
          buildEmitter sampleTicker) ∧
    (runner.New
          { Download := true
            Upload := true
            Timeout := defaultTimeout
            ClientFactory := ClientFactory sampleEnv (defaultFlags sampleEnv.cpu) none }
          buildEmitter sampleTicker).e =
      Emitter.Prometheus (Emitter.Quiet Emitter.HumanReadable)
        { opts :=
            { Namespace := str "ndt7"
              Name := str "download_throughput_bps"
              Help := str "m-lab ndt7 download speed in bits/s" }
          labelNames := [str "client_ip", str "server_ip"] }
        { opts :=
            { Namespace := str "ndt7"
              Name := str "download_latency_seconds"
              Help := str "m-lab ndt7 download latency time in seconds" }
          labelNames := [str "client_ip", str "server_ip"] }
        { opts :=
            { Namespace := str "ndt7"
              Name := str "upload_throughput_bps"
              Help := str "m-lab ndt7 upload speed in bits/s" }
          labelNames := [str "client_ip", str "server_ip"] }
        { opts :=
            { Namespace := str "ndt7"
              Name := str "upload_latency_seconds"
              Help := str "m-lab ndt7 upload latency time in seconds" }
          labelNames := [str "client_ip", str "server_ip"] }
        { opts :=
            { Namespace := str "ndt7"
              Name := str "result_timestamp_seconds"
              Help := str "m-lab ndt7 test completion time in seconds since 1970-01-01" }
          labelNames := [str "test", str "result"] } :=
  ⟨rfl,
    C8_emitter_composition sampleEnv (defaultFlags sampleEnv.cpu)
      (runner.New
          { Download := true
            Upload := true
            Timeout := defaultTimeout
            ClientFactory := ClientFactory sampleEnv (defaultFlags sampleEnv.cpu) none }
          buildEmitter sampleTicker)
      rfl⟩

/-- C9: when the path of the service URL contains both the download marker and
the upload marker, the direction resolution treats it as a download endpoint:
download on and upload off, whatever `-upload` and `-download` were, the
service URL kept. -/
theorem C9_download_marker_wins (p : Params) (flags : Flags) (u : URL)
    (hu : flags.flagService = some u)
    (hd : strings.Contains u.Path p.DownloadURLPath = true)
    (hup : strings.Contains u.Path p.UploadURLPath = true) :
    (resolveDirections p flags).1.flagDownload = true ∧
    (resolveDirections p flags).1.flagUpload = false ∧
    (resolveDirections p flags).1.flagService = some u ∧
    strings.Contains u.Path p.UploadURLPath = true := by
  refine ⟨?_, ?_, ?_, hup⟩ <;> simp [resolveDirections, hu, hd]

/-- Witness of C9: the path `/ndt/v7/upload/ndt/v7/download` contains both
markers. -/
theorem C9_witness :
    bothURLFlags.flagService = some bothURL ∧
    strings.Contains bothURL.Path sampleParams.DownloadURLPath = true ∧
    strings.Contains bothURL.Path sampleParams.UploadURLPath = true ∧
    (resolveDirections sampleParams bothURLFlags).1.flagDownload = true ∧
    (resolveDirections sampleParams bothURLFlags).1.flagUpload = false :=
  ⟨rfl, by decide, by decide,
    (C9_download_marker_wins sampleParams bothURLFlags bothURL rfl (by decide) (by decide)).1,
    (C9_download_marker_wins sampleParams bothURLFlags bothURL rfl (by decide)
      (by decide)).2.1⟩

end Ndt7Exporter
